import Mathlib

/-!
# Verification of the ChocAn schema-validated record store

A shallow embedding of `src/choc_an_simulator/schemas.py` and
`src/choc_an_simulator/database_management/` (files `edit_records.py`,
`load_records.py`, `_write_records.py`).

Modelling conventions, stated once:

* Python exceptions become an explicit error type `DBError`; every fallible
  Python function becomes a Lean function into `Except DBError _`.
* The on-disk parquet file of one table becomes an explicit value of type
  `Option DataFrame` (`none` = file absent) threaded through each operation;
  a mutating operation returns the new file content on success.  The
  `pyarrow.ArrowInvalid` / `ArrowIOError` paths (corrupt file, I/O failure)
  only re-raise the underlying error and are outside the model: the store
  argument always stands for a readable file.
* A `pd.Series` row becomes an association list `Row` from column names to
  values (a pandas Series carries its own index of labels); a `pd.DataFrame`
  becomes its column list together with its list of rows.
* Python float64 values are modelled as exact rationals (`ℚ`).  The record
  store only ever compares floats (`==`, `<`, `>`, range limits); it never
  performs float arithmetic, so the rational model is faithful for every
  comparison appearing below.
* A Python `range(a, b)` object stored in `character_limits` /
  `numeric_limits` is only ever consulted through its `.start` and `.stop`
  attributes (`schemas.py` lines 152-172), so it is embedded as the pair
  `RangeLimit` of those two integers; the checks read them as the inclusive
  bounds `[start, stop]`.
-/

/-- The Python exception kinds raised by the record store, one constructor per
Python exception class that `schemas.py` / `database_management` raise. -/
inductive DBError where
  /-- Python `KeyError`: unknown column / column-set mismatch. -/
  | keyError : DBError
  /-- Python `TypeError`: value incompatible with the declared column type,
  or an unsupported comparison inside a filter. -/
  | typeError : DBError
  /-- Python `ArithmeticError`: character- or numeric-limit violation. -/
  | arithmeticError : DBError
  /-- Python `ValueError`: duplicate index values on append. -/
  | valueError : DBError
  /-- Python `IndexError`: index value not found on update. -/
  | indexError : DBError
  /-- Python `AssertionError`: `update_record` called with no field changes. -/
  | assertionError : DBError
deriving DecidableEq, Repr

/-- The pyarrow column types used by the schemas in `schemas.py`. -/
inductive PaType where
  | int64 : PaType
  | float64 : PaType
  | utf8 : PaType
  | boolean : PaType
  | binary : PaType
  | date32 : PaType
  | date64 : PaType
deriving DecidableEq, Repr

/-- A Python value as it can appear in a record cell or as a filter / update
argument.  Floats are exact rationals (see the header comment); dates and
binary payloads are modelled by their underlying integers / byte lists. -/
inductive Value where
  | vInt : Int → Value
  | vFloat : ℚ → Value
  | vStr : String → Value
  | vBool : Bool → Value
  | vBytes : List Nat → Value
deriving DecidableEq, Repr

/-- `pa.array([value], type=ty)` succeeds: the dynamic type probe of
`TableInfo._check_type` (`schemas.py` line 144).  pyarrow accepts an int for
`int64` and `float64`, a float only for `float64` (or losslessly, i.e. with
denominator 1, for `int64`), a str for `utf8`, a bool for `bool_`, bytes for
`binary`, and an int (epoch value, as produced by pandas) for date columns. -/
def fitsType : Value → PaType → Bool
  | .vInt _, .int64 => true
  | .vInt _, .float64 => true
  | .vInt _, .date32 => true
  | .vInt _, .date64 => true
  | .vFloat _, .float64 => true
  | .vFloat q, .int64 => q.den == 1
  | .vStr _, .utf8 => true
  | .vBool _, .boolean => true
  | .vBytes _, .binary => true
  | _, _ => false

/-- Python `str(value)`, as consumed by `_check_character_limit`
(`schemas.py` line 156).  Only int / str / bool cells ever carry a character
limit in this repository; the float and bytes renderings are nominal. -/
def pyStr : Value → String
  | .vInt n => toString n
  | .vFloat q => toString q
  | .vStr s => s
  | .vBool b => if b then "True" else "False"
  | .vBytes bs => toString bs

/-- The numeric content of a value, used for Python's cross-type numeric
comparisons (`1 == 1.0` is `True`; `True` counts as `1`).  `none` for
non-numeric values. -/
def asRat : Value → Option ℚ
  | .vInt n => some (n : ℚ)
  | .vFloat q => some q
  | .vBool b => some (if b then 1 else 0)
  | .vStr _ => none
  | .vBytes _ => none

/-- Python `==` between two cell values (pandas elementwise equality):
numeric values compare by value across int/float/bool; otherwise structural
equality, and values of unrelated types are unequal (not an error). -/
def pyEq (a b : Value) : Bool :=
  match asRat a, asRat b with
  | some x, some y => x == y
  | _, _ => a == b

/-- Python `<` between two cell values (pandas elementwise less-than):
numeric against numeric compares by value, str against str is lexicographic,
anything else raises `TypeError`. -/
def pyLt (a b : Value) : Except DBError Bool :=
  match asRat a, asRat b with
  | some x, some y => .ok (decide (x < y))
  | _, _ =>
    match a, b with
    | .vStr s, .vStr t => .ok (decide (s < t))
    | _, _ => .error .typeError

/-- Python `>` between two cell values; `a > b` delegates to `b < a` for the
types in scope. -/
def pyGt (a b : Value) : Except DBError Bool :=
  pyLt b a

/-- A pyarrow `pa.field`: a column name with its declared type. -/
structure PaField where
  name : String
  type : PaType
deriving DecidableEq, Repr

/-- A Python `range(start, stop)` as consulted by the limit checks: only its
`.start` and `.stop` attributes are read, and they are used as the inclusive
bounds of the accepted interval (`schemas.py` lines 158 and 169, confirmed by
`tests/test_schemas.py`: `range(200, 50000)` rejects 199 and accepts 200). -/
structure RangeLimit where
  start : Int
  stop : Int
deriving DecidableEq, Repr

/-- `TableInfo` (`schemas.py` lines 21-31): the schema descriptor of one
table.  Limit dictionaries become association lists from column names. -/
structure TableInfo where
  name : String
  schema : List PaField
  character_limits : List (String × RangeLimit) := []
  numeric_limits : List (String × RangeLimit) := []
deriving DecidableEq, Repr

namespace TableInfo

/-- `self.schema.names`. -/
def schemaNames (t : TableInfo) : List String :=
  t.schema.map PaField.name

/-- `self.schema.field(field_name)`: the first schema field with the given
name, if any. -/
def schemaField (t : TableInfo) (field_name : String) : Option PaField :=
  t.schema.find? (fun f => f.name == field_name)

/-- Dictionary lookup in a limits association list. -/
def lookupLimit (limits : List (String × RangeLimit)) (field_name : String) :
    Option RangeLimit :=
  (limits.find? (fun p => p.1 == field_name)).map Prod.snd

/-- `TableInfo.index_col` (`schemas.py` line 50): the first column's name.
The Python version indexes `schema.names[0]` of a schema that is never
empty; an empty schema is mapped to the empty name. -/
def index_col (t : TableInfo) : String :=
  (t.schemaNames.headD "")

/-- `TableInfo._check_field_exists` (`schemas.py` line 133). -/
def _check_field_exists (t : TableInfo) (field_name : String) :
    Except DBError Unit :=
  if field_name ∈ t.schemaNames then .ok () else .error .keyError

/-- `TableInfo._check_type` (`schemas.py` line 140): probe the value against
the column's declared type; `TypeError` on failure. -/
def _check_type (t : TableInfo) (field_name : String) (value : Value) :
    Except DBError Unit :=
  match t.schemaField field_name with
  | some f => if fitsType value f.type then .ok () else .error .typeError
  | none => .error .keyError

/-- `TableInfo._check_character_limit` (`schemas.py` line 152): no-op for a
column without a character limit; otherwise `len(str(value))` must lie in the
inclusive interval `[limit.start, limit.stop]`. -/
def _check_character_limit (t : TableInfo) (field_name : String)
    (value : Value) : Except DBError Unit :=
  match lookupLimit t.character_limits field_name with
  | none => .ok ()
  | some r =>
    let val_len : Int := (pyStr value).length
    if val_len < r.start ∨ val_len > r.stop then .error .arithmeticError
    else .ok ()

/-- `TableInfo._check_numeric_limit` (`schemas.py` line 164): no-op for a
column without a numeric limit; otherwise the value must lie in the inclusive
interval `[limit.start, limit.stop]`.  Comparing a non-numeric value against
an int raises `TypeError` in Python. -/
def _check_numeric_limit (t : TableInfo) (field_name : String)
    (value : Value) : Except DBError Unit :=
  match lookupLimit t.numeric_limits field_name with
  | none => .ok ()
  | some r =>
    match asRat value with
    | some q =>
      if q < (r.start : ℚ) ∨ q > (r.stop : ℚ) then .error .arithmeticError
      else .ok ()
    | none => .error .typeError

/-- `TableInfo.check_field` (`schemas.py` line 115): existence, type,
character limit, numeric limit, in that order. -/
def check_field (t : TableInfo) (value : Value) (field_name : String) :
    Except DBError Unit := do
  t._check_field_exists field_name
  t._check_type field_name value
  t._check_character_limit field_name value
  t._check_numeric_limit field_name value

/-- `TableInfo.check_columns` (`schemas.py` line 71): the given column names
and the schema's names must be equal as sets (`set(...) != set(...)`). -/
def check_columns (t : TableInfo) (columns : List String) :
    Except DBError Unit :=
  if t.schemaNames.all (fun c => c ∈ columns) ∧
      columns.all (fun c => c ∈ t.schemaNames) then .ok ()
  else .error .keyError

end TableInfo

/-- One record, as the pandas Series that `check_series` and the row-level
operations receive: an association list from column names to cell values. -/
abbrev Row := List (String × Value)

/-- The value a row holds for a named column (`row[col]`), if present. -/
def rowVal (r : Row) (col : String) : Option Value :=
  (r.find? (fun p => p.1 == col)).map Prod.snd

/-- The row's first (positional) entry's value: `records.iloc[:, 0]`
restricted to one row. -/
def firstVal (r : Row) : Option Value :=
  r.head?.map Prod.snd

/-- Python `row[field_name] = value` on a Series: overwrite the entry when
the label exists, append it otherwise. -/
def rowSet (r : Row) (field_name : String) (v : Value) : Row :=
  if r.any (fun p => p.1 == field_name) then
    r.map (fun p => if p.1 == field_name then (p.1, v) else p)
  else
    r ++ [(field_name, v)]

/-- A pandas DataFrame: its column names and its rows (each row keyed by the
column names). -/
structure DataFrame where
  columns : List String
  rows : List Row
deriving DecidableEq, Repr

namespace TableInfo

/-- The body of `TableInfo.check_series` (`schemas.py` line 112 loop):
`check_field` on every labelled cell, first failure wins. -/
def checkFieldsLoop (t : TableInfo) : Row → Except DBError Unit
  | [] => .ok ()
  | (field_name, value) :: rest => do
    t.check_field value field_name
    t.checkFieldsLoop rest

/-- `TableInfo.check_series` (`schemas.py` line 98): column-set check, then
`check_field` on every cell. -/
def check_series (t : TableInfo) (data : Row) : Except DBError Unit := do
  t.check_columns (data.map Prod.fst)
  t.checkFieldsLoop data

/-- The row loop of `TableInfo.check_dataframe` (`schemas.py` line 96,
`data.apply(lambda row: self.check_series(row), axis=1)`): `check_series` on
every row in order, first failure wins. -/
def checkRowsLoop (t : TableInfo) : List Row → Except DBError Unit
  | [] => .ok ()
  | r :: rs => do
    t.check_series r
    t.checkRowsLoop rs

/-- `TableInfo.check_dataframe` (`schemas.py` line 84). -/
def check_dataframe (t : TableInfo) (data : DataFrame) : Except DBError Unit :=
  t.checkRowsLoop data.rows

end TableInfo

/-- The persisted parquet file of one table: `none` when the file has never
been written. -/
abbrev Store := Option DataFrame

/-- `_load_all_records_from_file_` (`load_records.py` line 101): a missing
file yields `pa.Table.from_pylist([], schema=...).to_pandas()`, the zero-row
DataFrame with the schema's columns, returned before any column check; a
present file is read and validated with `check_dataframe`. -/
def _load_all_records_from_file_ (t : TableInfo) (store : Store) :
    Except DBError DataFrame :=
  match store with
  | none => .ok ⟨t.schemaNames, []⟩
  | some records => do
    t.check_dataframe records
    .ok records

/-- `_overwrite_records_to_file_` (`_write_records.py` line 8): validate the
whole DataFrame against the schema, then replace the file's content with it.
The new file content is returned. -/
def _overwrite_records_to_file_ (records : DataFrame) (t : TableInfo) :
    Except DBError Store := do
  t.check_dataframe records
  .ok (some records)

/-- The per-row evaluation of `records[operator(records[col], val)]`
(`load_records.py` line 93): keep the rows whose `col` cell satisfies the
comparison; a row without the column is a pandas `KeyError`, and a failing
comparison aborts the whole selection.  Also reused for
`records[records[col] != index]` in `remove_record`. -/
def filterRows (op : Value → Value → Except DBError Bool) (col : String)
    (val : Value) : List Row → Except DBError (List Row)
  | [] => .ok []
  | r :: rs =>
    match rowVal r col with
    | none => .error .keyError
    | some x => do
      let keep ← op x val
      let rest ← filterRows op col val rs
      .ok (if keep then r :: rest else rest)

/-- The `for col, val in col_filters.items()` loop of `_apply_filter`
(`load_records.py` line 89): reject a filter column absent from the schema
with `KeyError`, otherwise narrow the rows by the comparison. -/
def applyFilterLoop (t : TableInfo) (op : Value → Value → Except DBError Bool) :
    DataFrame → List (String × Value) → Except DBError DataFrame
  | records, [] => .ok records
  | records, (col, val) :: rest =>
    if col ∈ t.schemaNames then do
      let rows' ← filterRows op col val records.rows
      applyFilterLoop t op ⟨records.columns, rows'⟩ rest
    else .error .keyError

/-- `_apply_filter` (`load_records.py` line 69): `None` filters leave the
records untouched. -/
def _apply_filter (records : DataFrame)
    (col_filters : Option (List (String × Value)))
    (op : Value → Value → Except DBError Bool) (t : TableInfo) :
    Except DBError DataFrame :=
  match col_filters with
  | none => .ok records
  | some filters => applyFilterLoop t op records filters

/-- Lifted Python `==` for `_apply_filter` with `operator.eq`: pandas
elementwise equality never raises for the value types in scope. -/
def pyEqOp (a b : Value) : Except DBError Bool :=
  .ok (pyEq a b)

/-- `load_records_from_file` (`load_records.py` line 10): load everything,
then apply the equality, less-than and greater-than filters in that order. -/
def load_records_from_file (t : TableInfo)
    (eq_cols lt_cols gt_cols : Option (List (String × Value)))
    (store : Store) : Except DBError DataFrame := do
  let records ← _load_all_records_from_file_ t store
  let records ← _apply_filter records eq_cols pyEqOp t
  let records ← _apply_filter records lt_cols pyLt t
  let records ← _apply_filter records gt_cols pyGt t
  .ok records

/-- `_any_duplicate_values` (`edit_records.py` line 145):
`col_a.isin(col_b).any()`, with pandas `isin` matching values under Python
equality semantics. -/
def _any_duplicate_values (col_a col_b : List Value) : Bool :=
  col_a.any (fun v => col_b.any (fun w => pyEq v w))

/-- The index column of a DataFrame as the list of each row's first
(positional) cell: `records.iloc[:, 0]`.  A row with no cells (impossible for
a schema with columns) contributes nothing. -/
def firstColValues (df : DataFrame) : List Value :=
  df.rows.filterMap firstVal

/-- `add_records_to_file` (`edit_records.py` line 10): load the existing
records (missing file = empty table), validate the new batch against the
schema, reject any index collision between the existing index column and the
batch's index column with `ValueError`, then append the batch after the
existing rows and overwrite the file. -/
def add_records_to_file (records : DataFrame) (t : TableInfo)
    (store : Store) : Except DBError Store := do
  let existing_records ← _load_all_records_from_file_ t store
  t.check_dataframe records
  if _any_duplicate_values (firstColValues existing_records)
      (firstColValues records) then
    .error .valueError
  else
    _overwrite_records_to_file_
      ⟨existing_records.columns, existing_records.rows ++ records.rows⟩ t

/-- `_get_row_by_index` (`edit_records.py` line 150): the first row whose
first (positional) cell equals the index under pandas `==`.  The Python
function returns `rows.iloc[0]` of the boolean-mask selection
`records.loc[records.iloc[:, 0] == index]`; a pandas boolean-mask selection
is always a fresh copy, so the Series handed back never aliases `records` —
writes to it are invisible to `records`.  The embedding therefore returns the
row as a value, and callers that mutate it mutate only their copy. -/
def _get_row_by_index (records : DataFrame) (index : Value) : Option Row :=
  (records.rows.filter
    (fun r => match firstVal r with
      | some x => pyEq x index
      | none => false)).head?

/-- `_validate_and_update_field` (`edit_records.py` line 208): `check_field`
the new value, then write it into the (copied) row. -/
def _validate_and_update_field (row : Row) (field_name : String)
    (updated_value : Value) (t : TableInfo) : Except DBError Row := do
  t.check_field updated_value field_name
  .ok (rowSet row field_name updated_value)

/-- The `for field_name, updated_value in field_updates.items()` loop of
`_validate_and_update_fields` (`edit_records.py` line 203), threading the
copied row through the per-field validate-and-write calls. -/
def updateFieldsLoop (t : TableInfo) :
    Row → List (String × Value) → Except DBError Row
  | row, [] => .ok row
  | row, (field_name, updated_value) :: rest => do
    let row' ← _validate_and_update_field row field_name updated_value t
    updateFieldsLoop t row' rest

/-- `_validate_and_update_fields` (`edit_records.py` line 168): look the row
up (a copy — see `_get_row_by_index`), raise `IndexError` when absent, run
the per-field loop on the copy, and return `records`.  Because the loop only
ever wrote to the copy, the returned DataFrame is the unmodified input: this
mirrors the Python code exactly, where the final `return records` returns the
DataFrame the Series writes never reached. -/
def _validate_and_update_fields (records : DataFrame) (index : Value)
    (field_updates : List (String × Value)) (t : TableInfo) :
    Except DBError DataFrame :=
  match _get_row_by_index records index with
  | none => .error .indexError
  | some row => do
    let _ ← updateFieldsLoop t row field_updates
    .ok records

/-- `update_record` (`edit_records.py` line 50): assert at least one change,
load, validate-and-update (see `_validate_and_update_fields`), overwrite, and
return the row looked up again from the written records together with the new
file content.  (`cast(pd.Series, ...)` is a static no-op, so the looked-up
`Option Row` is returned as-is.) -/
def update_record (index : Value) (t : TableInfo)
    (kwargs : List (String × Value)) (store : Store) :
    Except DBError (Option Row × Store) := do
  if kwargs.length > 0 then
    let records ← _load_all_records_from_file_ t store
    let records ← _validate_and_update_fields records index kwargs t
    let store' ← _overwrite_records_to_file_ records t
    .ok (_get_row_by_index records index, store')
  else
    .error .assertionError

/-- Lifted pandas `!=` for `remove_record`'s row selection
`records[records[table_info.index_col()] != index]`: never raises for the
value types in scope. -/
def pyNeOp (a b : Value) : Except DBError Bool :=
  .ok (! pyEq a b)

/-- `remove_record` (`edit_records.py` line 103): load, drop every row whose
index-column cell (accessed by the schema's first column NAME) equals the
index, return `false` without writing when nothing was dropped, otherwise
overwrite and return `true`. -/
def remove_record (index : Value) (t : TableInfo) (store : Store) :
    Except DBError (Bool × Store) := do
  let records ← _load_all_records_from_file_ t store
  let kept ← filterRows pyNeOp t.index_col index records.rows
  if kept.length == records.rows.length then
    .ok (false, store)
  else do
    let store' ← _overwrite_records_to_file_ ⟨records.columns, kept⟩ t
    .ok (true, store')

deriving instance DecidableEq for Except

/-!
### Concrete tables

`exInfo` is the end-to-end schema used throughout the repository's own tests
(`tests/test_database_management.py` fixture `test_table_info`): columns
`ID : int64` (the index) and `value : float64` with numeric limit
`range(0, 3)` on `value`; `exDF` is the fixture table
`{"ID": [1, 2], "value": [1.1, 2.2]}`.

`PROVIDER_DIRECTORY_INFO` is the service-directory schema of
`schemas.py` lines 176-188, embedded limit-for-limit.
-/

def exInfo : TableInfo :=
  { name := "test"
    schema := [⟨"ID", .int64⟩, ⟨"value", .float64⟩]
    numeric_limits := [("value", ⟨0, 3⟩)] }

def exRow1 : Row := [("ID", .vInt 1), ("value", .vFloat (mkRat 11 10))]

def exRow2 : Row := [("ID", .vInt 2), ("value", .vFloat (mkRat 22 10))]

def exDF : DataFrame := ⟨["ID", "value"], [exRow1, exRow2]⟩

def PROVIDER_DIRECTORY_INFO : TableInfo :=
  { name := "provider_directory"
    schema := [⟨"service_id", .int64⟩, ⟨"service_name", .utf8⟩,
               ⟨"price_dollars", .int64⟩, ⟨"price_cents", .int64⟩]
    character_limits := [("service_id", ⟨6, 6⟩), ("service_name", ⟨1, 20⟩)]
    numeric_limits := [("price_cents", ⟨1, 99⟩)] }

/-!
### Derived predicates used to state the claims

These package, as single executable Booleans, what one step of the code's
monadic row selection does, so that the claim theorems can state "returns
exactly the rows satisfying every filter" as one `List.filter`.
-/

/-- Whether one row survives `records[operator(records[col], val)]`: the
`col` cell exists and the comparison returns `true`.  (When the comparison
errors the whole selection errors, so the `false` in that branch is never
observed through `filterRows`.) -/
def keepRow (op : Value → Value → Except DBError Bool) (col : String)
    (val : Value) (r : Row) : Bool :=
  match rowVal r col with
  | some x =>
    match op x val with
    | .ok b => b
    | .error _ => false
  | none => false

/-- Whether the comparison behind `keepRow` is defined on this row: the
`col` cell exists and `op` returns a Boolean rather than raising. -/
def cmpDefined (op : Value → Value → Except DBError Bool) (col : String)
    (val : Value) (r : Row) : Bool :=
  match rowVal r col with
  | some x =>
    match op x val with
    | .ok _ => true
    | .error _ => false
  | none => false

/-- Whether a row satisfies every `(column, value)` entry of one filter kind
under the comparison `op` (entries are AND-combined). -/
def matchesAll (op : Value → Value → Except DBError Bool)
    (filters : List (String × Value)) (r : Row) : Bool :=
  filters.all (fun cv => keepRow op cv.1 cv.2 r)

/-- The table left behind by `remove_record idx`: the rows whose
index-column cell is NOT pandas-equal to `idx`. -/
def removedDF (t : TableInfo) (idx : Value) (df : DataFrame) : DataFrame :=
  ⟨df.columns, df.rows.filter (keepRow pyNeOp t.index_col idx)⟩

/-!
### Generic `Except` plumbing lemmas
-/

theorem except_bind_ok {ε α β : Type} (a : α) (f : α → Except ε β) :
    (Except.ok a >>= f) = f a := rfl

theorem except_bind_error {ε α β : Type} (e : ε) (f : α → Except ε β) :
    ((Except.error e : Except ε α) >>= f) = Except.error e := rfl

/-- C1.  The claim says `update_record(idx, schema, changes)` persists the
changed field values and returns the updated row.  The code does neither:
`_get_row_by_index` hands `_validate_and_update_fields` a pandas boolean-mask
selection, which is a fresh copy, so the per-field writes mutate only that
copy; the function then overwrites the file with the UNCHANGED table and
returns the row re-read from it.  Evaluated at the spec's own end-to-end
input (stored rows `{ID: [1, 2], value: [1.1, 2.2]}`, update of row 2 to
`value = 2.3`): the call succeeds but returns the OLD row
`{ID: 2, value: 2.2}` and leaves the stored table exactly as it was —
`value = 2.3` is nowhere. -/
theorem C1_update_persists_nothing :
    update_record (.vInt 2) exInfo [("value", .vFloat (mkRat 23 10))] (some exDF)
      = .ok (some exRow2, some exDF) := by decide

/-- C4.  For every schema whose backing file has never been written
(`store = none`), `load_records_from_file` with no filters returns the
zero-row table whose columns are the schema's columns, raising no error. -/
theorem C4_missing_file_is_empty (t : TableInfo) :
    load_records_from_file t none none none none = .ok ⟨t.schemaNames, []⟩ := rfl

/-- C5.  Round trip: for every schema-valid table `T`, `overwrite_all`
accepts `T` and stores exactly `T`, and `load_all` (a filterless
`load_records_from_file`) on the stored file returns `T` — same rows in the
same order, same column values. -/
theorem C5_round_trip (t : TableInfo) (T : DataFrame)
    (hT : t.check_dataframe T = .ok ()) :
    _overwrite_records_to_file_ T t = .ok (some T) ∧
      load_records_from_file t none none none (some T) = .ok T := by
  constructor
  · unfold _overwrite_records_to_file_
    rw [hT, except_bind_ok]
  · simp only [load_records_from_file, _load_all_records_from_file_, hT,
      except_bind_ok, _apply_filter]

/-- C5 witness: the round trip at the concrete fixture table. -/
theorem C5_witness :
    _overwrite_records_to_file_ exDF exInfo = .ok (some exDF) ∧
      load_records_from_file exInfo none none none (some exDF) = .ok exDF :=
  C5_round_trip exInfo exDF (by decide)

/-- C8 counterexample: the claim says `check_field(value, "price_cents")`
accepts every integer from 0 through 99, but the stored limit is
`range(1, 99)` read inclusively as `[1, 99]`, so the value 0 raises
`ArithmeticError` (`RangeError`) instead of being accepted. -/
theorem C8_counterexample :
    PROVIDER_DIRECTORY_INFO.check_field (.vInt 0) "price_cents"
      = .error .arithmeticError := by decide

/-- C8 (amended).  For the service-directory schema,
`check_field(value, "price_cents")` accepts every integer from 1 through 99
inclusive and raises `RangeError` (`ArithmeticError`) for every integer
outside 1 through 99. -/
theorem C8_price_cents_limits (n : Int) :
    (1 ≤ n ∧ n ≤ 99 →
      PROVIDER_DIRECTORY_INFO.check_field (.vInt n) "price_cents" = .ok ()) ∧
    (n < 1 ∨ 99 < n →
      PROVIDER_DIRECTORY_INFO.check_field (.vInt n) "price_cents"
        = .error .arithmeticError) := by
  have hred : PROVIDER_DIRECTORY_INFO.check_field (.vInt n) "price_cents"
      = if (n : ℚ) < ((1 : Int) : ℚ) ∨ (n : ℚ) > ((99 : Int) : ℚ)
        then .error .arithmeticError else .ok () := rfl
  constructor
  · rintro ⟨h1, h2⟩
    have hno : ¬((n : ℚ) < ((1 : Int) : ℚ) ∨ (n : ℚ) > ((99 : Int) : ℚ)) := by
      push_neg
      exact ⟨by exact_mod_cast h1, by exact_mod_cast h2⟩
    rw [hred, if_neg hno]
  · intro h
    have hyes : (n : ℚ) < ((1 : Int) : ℚ) ∨ (n : ℚ) > ((99 : Int) : ℚ) := by
      rcases h with h | h
      · exact Or.inl (by exact_mod_cast h)
      · exact Or.inr (by exact_mod_cast h)
    rw [hred, if_pos hyes]

/-- C8 witness: the boundary value 99 is accepted, 100 is rejected. -/
theorem C8_witness :
    PROVIDER_DIRECTORY_INFO.check_field (.vInt 99) "price_cents" = .ok () ∧
    PROVIDER_DIRECTORY_INFO.check_field (.vInt 100) "price_cents"
      = .error .arithmeticError :=
  ⟨(C8_price_cents_limits 99).1 (by decide), (C8_price_cents_limits 100).2 (by decide)⟩

/-!
### Characterizations of the schema checks
-/

/-- `checkRowsLoop` succeeds exactly when `check_series` succeeds on every
row. -/
theorem checkRowsLoop_ok_iff (t : TableInfo) (rs : List Row) :
    t.checkRowsLoop rs = .ok () ↔ ∀ r ∈ rs, t.check_series r = .ok () := by
  induction rs with
  | nil => simp [TableInfo.checkRowsLoop]
  | cons r rs ih =>
    cases h : t.check_series r with
    | ok u =>
      cases u
      simp only [TableInfo.checkRowsLoop, h, except_bind_ok, ih, List.mem_cons]
      constructor
      · intro hall r' hr'
        rcases hr' with rfl | hr'
        · exact h
        · exact hall r' hr'
      · intro hall r' hr'
        exact hall r' (Or.inr hr')
    | error e =>
      simp only [TableInfo.checkRowsLoop, h, except_bind_error]
      constructor
      · intro hcon
        exact absurd hcon (by simp)
      · intro hall
        have h2 := hall r (by simp)
        rw [h] at h2
        exact absurd h2 (by simp)

/-- `check_dataframe` succeeds exactly when every row passes
`check_series`. -/
theorem check_dataframe_ok_iff (t : TableInfo) (df : DataFrame) :
    t.check_dataframe df = .ok () ↔ ∀ r ∈ df.rows, t.check_series r = .ok () :=
  checkRowsLoop_ok_iff t df.rows

/-- `_check_field_exists` only ever raises `KeyError`. -/
theorem check_field_exists_err (t : TableInfo) (n : String) (e : DBError)
    (h : t._check_field_exists n = .error e) : e = .keyError := by
  unfold TableInfo._check_field_exists at h
  split at h <;> simp_all

/-- `_check_type` only ever raises `KeyError` or `TypeError`. -/
theorem check_type_err (t : TableInfo) (n : String) (v : Value) (e : DBError)
    (h : t._check_type n v = .error e) : e = .keyError ∨ e = .typeError := by
  unfold TableInfo._check_type at h
  split at h
  · split at h <;> simp_all
  · simp_all

/-- `_check_character_limit` only ever raises `ArithmeticError`. -/
theorem check_character_limit_err (t : TableInfo) (n : String) (v : Value)
    (e : DBError) (h : t._check_character_limit n v = .error e) :
    e = .arithmeticError := by
  unfold TableInfo._check_character_limit at h
  split at h
  · simp_all
  · dsimp only at h
    split at h <;> simp_all

/-- `_check_numeric_limit` only ever raises `TypeError` or
`ArithmeticError`. -/
theorem check_numeric_limit_err (t : TableInfo) (n : String) (v : Value)
    (e : DBError) (h : t._check_numeric_limit n v = .error e) :
    e = .typeError ∨ e = .arithmeticError := by
  unfold TableInfo._check_numeric_limit at h
  split at h
  · simp_all
  · split at h
    · split at h <;> simp_all
    · simp_all

/-- `check_field` only ever raises `KeyError`, `TypeError` or
`ArithmeticError` — never the duplicate-key `ValueError`. -/
theorem check_field_error_kinds (t : TableInfo) (v : Value) (n : String)
    (e : DBError) (h : t.check_field v n = .error e) :
    e = .keyError ∨ e = .typeError ∨ e = .arithmeticError := by
  unfold TableInfo.check_field at h
  cases h1 : t._check_field_exists n with
  | error e1 =>
    rw [h1, except_bind_error] at h
    injection h with h2
    exact Or.inl (h2 ▸ check_field_exists_err t n e1 h1)
  | ok u =>
    cases u
    rw [h1, except_bind_ok] at h
    cases h2 : t._check_type n v with
    | error e2 =>
      rw [h2, except_bind_error] at h
      injection h with h3
      rcases check_type_err t n v e2 h2 with hk | hk
      · exact Or.inl (h3 ▸ hk)
      · exact Or.inr (Or.inl (h3 ▸ hk))
    | ok u =>
      cases u
      rw [h2, except_bind_ok] at h
      cases h3 : t._check_character_limit n v with
      | error e3 =>
        rw [h3, except_bind_error] at h
        injection h with h4
        exact Or.inr (Or.inr (h4 ▸ check_character_limit_err t n v e3 h3))
      | ok u =>
        cases u
        rw [h3, except_bind_ok] at h
        rcases check_numeric_limit_err t n v e h with hk | hk
        · exact Or.inr (Or.inl hk)
        · exact Or.inr (Or.inr hk)

/-- `check_columns` only ever raises `KeyError`. -/
theorem check_columns_err (t : TableInfo) (cols : List String) (e : DBError)
    (h : t.check_columns cols = .error e) : e = .keyError := by
  unfold TableInfo.check_columns at h
  split at h <;> simp_all

/-- `checkFieldsLoop` only ever raises the three validation error kinds. -/
theorem checkFieldsLoop_error_kinds (t : TableInfo) (r : Row) (e : DBError)
    (h : t.checkFieldsLoop r = .error e) :
    e = .keyError ∨ e = .typeError ∨ e = .arithmeticError := by
  induction r with
  | nil => simp [TableInfo.checkFieldsLoop] at h
  | cons p rest ih =>
    obtain ⟨n, v⟩ := p
    unfold TableInfo.checkFieldsLoop at h
    cases h1 : t.check_field v n with
    | error e1 =>
      rw [h1, except_bind_error] at h
      injection h with h2
      exact h2 ▸ check_field_error_kinds t v n e1 h1
    | ok u =>
      cases u
      rw [h1, except_bind_ok] at h
      exact ih h

/-- `check_series` only ever raises the three validation error kinds. -/
theorem check_series_error_kinds (t : TableInfo) (r : Row) (e : DBError)
    (h : t.check_series r = .error e) :
    e = .keyError ∨ e = .typeError ∨ e = .arithmeticError := by
  unfold TableInfo.check_series at h
  cases h1 : t.check_columns (r.map Prod.fst) with
  | error e1 =>
    rw [h1, except_bind_error] at h
    injection h with h2
    exact Or.inl (h2 ▸ check_columns_err t _ e1 h1)
  | ok u =>
    cases u
    rw [h1, except_bind_ok] at h
    exact checkFieldsLoop_error_kinds t r e h

/-- `checkRowsLoop` only ever raises the three validation error kinds. -/
theorem checkRowsLoop_error_kinds (t : TableInfo) (rs : List Row)
    (e : DBError) (h : t.checkRowsLoop rs = .error e) :
    e = .keyError ∨ e = .typeError ∨ e = .arithmeticError := by
  induction rs with
  | nil => simp [TableInfo.checkRowsLoop] at h
  | cons r rs ih =>
    unfold TableInfo.checkRowsLoop at h
    cases h1 : t.check_series r with
    | error e1 =>
      rw [h1, except_bind_error] at h
      injection h with h2
      exact h2 ▸ check_series_error_kinds t r e1 h1
    | ok u =>
      cases u
      rw [h1, except_bind_ok] at h
      exact ih h

/-- `check_dataframe` only ever raises the three validation error kinds,
never `ValueError` (`DuplicateKey`). -/
theorem check_dataframe_error_kinds (t : TableInfo) (df : DataFrame)
    (e : DBError) (h : t.check_dataframe df = .error e) :
    e = .keyError ∨ e = .typeError ∨ e = .arithmeticError :=
  checkRowsLoop_error_kinds t df.rows e h

/-- `_any_duplicate_values` is the existence of a pandas-equal pair across
the two columns. -/
theorem any_duplicate_values_iff (a b : List Value) :
    _any_duplicate_values a b = true ↔ ∃ v ∈ a, ∃ w ∈ b, pyEq v w = true := by
  simp [_any_duplicate_values, List.any_eq_true]

/-- C2.  Duplicate rejection is atomic: appending a schema-valid batch in
which some row's index value collides (under pandas equality) with an
existing stored row raises `ValueError` (`DuplicateKey`), and no write
occurs — the call produces no new file content, so the stored table after
the failed call is the stored table before it. -/
theorem C2_duplicate_rejection_atomic (t : TableInfo) (df batch : DataFrame)
    (hdf : t.check_dataframe df = .ok ())
    (hbatch : t.check_dataframe batch = .ok ())
    (hdup : ∃ w ∈ firstColValues batch, ∃ v ∈ firstColValues df, pyEq v w = true) :
    add_records_to_file batch t (some df) = .error .valueError := by
  have hany : _any_duplicate_values (firstColValues df) (firstColValues batch)
      = true := by
    rw [any_duplicate_values_iff]
    obtain ⟨w, hw, v, hv, hvw⟩ := hdup
    exact ⟨v, hv, w, hw, hvw⟩
  simp only [add_records_to_file, _load_all_records_from_file_, hdf,
    except_bind_ok, hbatch, hany, if_true]

/-- C2 witness: re-appending the fixture rows themselves collides. -/
theorem C2_witness :
    add_records_to_file exDF exInfo (some exDF) = .error .valueError :=
  C2_duplicate_rejection_atomic exInfo exDF exDF (by decide) (by decide)
    (by decide)

/-- C6.  Validation precedes the duplicate check: a batch that fails schema
validation AND collides on the index column raises the schema error produced
by `check_dataframe` — which is always one of `KeyError` / `TypeError` /
`ArithmeticError` and never the duplicate-key `ValueError` — and nothing is
written. -/
theorem C6_validation_precedes_duplicate_check (t : TableInfo)
    (df batch : DataFrame) (e : DBError)
    (hdf : t.check_dataframe df = .ok ())
    (hbatch : t.check_dataframe batch = .error e)
    (_hdup : ∃ w ∈ firstColValues batch, ∃ v ∈ firstColValues df, pyEq v w = true) :
    add_records_to_file batch t (some df) = .error e ∧
      (e = .keyError ∨ e = .typeError ∨ e = .arithmeticError) ∧
      e ≠ .valueError := by
  refine ⟨?_, check_dataframe_error_kinds t batch e hbatch, ?_⟩
  · simp only [add_records_to_file, _load_all_records_from_file_, hdf,
      except_bind_ok, hbatch, except_bind_error]
  · rcases check_dataframe_error_kinds t batch e hbatch with h | h | h <;>
      simp [h]

/-- C6 witness: a batch whose row is out of range (`value = 5`) and whose
index collides with stored row 1 raises `ArithmeticError`, not
`ValueError`. -/
theorem C6_witness :
    add_records_to_file
        ⟨["ID", "value"], [[("ID", .vInt 1), ("value", .vFloat (mkRat 5 1))]]⟩
        exInfo (some exDF)
      = .error .arithmeticError ∧
      (DBError.arithmeticError = .keyError ∨
        DBError.arithmeticError = .typeError ∨
        DBError.arithmeticError = .arithmeticError) ∧
      DBError.arithmeticError ≠ .valueError :=
  C6_validation_precedes_duplicate_check exInfo exDF
    ⟨["ID", "value"], [[("ID", .vInt 1), ("value", .vFloat (mkRat 5 1))]]⟩
    .arithmeticError (by decide) (by decide) (by decide)

/-- C10.  The duplicate check only compares the batch against the stored
rows, never the batch against itself: any schema-valid batch whose index
values are all pandas-unequal to every stored index value is appended in
full — even when the batch repeats an index value internally — so a stored
table with a duplicated index is reachable through `add_records_to_file`. -/
theorem C10_no_intra_batch_duplicate_check (t : TableInfo)
    (df batch : DataFrame)
    (hdf : t.check_dataframe df = .ok ())
    (hbatch : t.check_dataframe batch = .ok ())
    (hnodup : ∀ v ∈ firstColValues df, ∀ w ∈ firstColValues batch,
      pyEq v w = false) :
    add_records_to_file batch t (some df)
      = .ok (some ⟨df.columns, df.rows ++ batch.rows⟩) := by
  have hany : _any_duplicate_values (firstColValues df) (firstColValues batch)
      = false := by
    rw [Bool.eq_false_iff, Ne, any_duplicate_values_iff]
    rintro ⟨v, hv, w, hw, hvw⟩
    rw [hnodup v hv w hw] at hvw
    exact Bool.false_ne_true hvw
  have hcomb : t.check_dataframe ⟨df.columns, df.rows ++ batch.rows⟩
      = .ok () := by
    rw [check_dataframe_ok_iff]
    intro r hr
    rcases List.mem_append.1 hr with h | h
    · exact (check_dataframe_ok_iff t df).1 hdf r h
    · exact (check_dataframe_ok_iff t batch).1 hbatch r h
  simp only [add_records_to_file, _load_all_records_from_file_, hdf,
    except_bind_ok, hbatch, hany, Bool.false_eq_true, if_false,
    _overwrite_records_to_file_, hcomb]

/-- C10 witness: a batch whose two rows BOTH carry index 7 (absent from the
stored table) is appended whole, leaving a stored table whose index column
contains 7 twice. -/
theorem C10_witness :
    add_records_to_file
        ⟨["ID", "value"],
          [[("ID", .vInt 7), ("value", .vFloat (mkRat 1 1))],
           [("ID", .vInt 7), ("value", .vFloat (mkRat 2 1))]]⟩
        exInfo (some exDF)
      = .ok (some ⟨["ID", "value"],
          exDF.rows ++
            [[("ID", .vInt 7), ("value", .vFloat (mkRat 1 1))],
             [("ID", .vInt 7), ("value", .vFloat (mkRat 2 1))]]⟩) :=
  C10_no_intra_batch_duplicate_check exInfo exDF
    ⟨["ID", "value"],
      [[("ID", .vInt 7), ("value", .vFloat (mkRat 1 1))],
       [("ID", .vInt 7), ("value", .vFloat (mkRat 2 1))]]⟩
    (by decide) (by decide) (by decide)

/-- When every earlier field change validates and one field change fails
`check_field` with error `e`, the per-field update loop raises exactly `e`
(first invalid field wins), regardless of the row it is updating. -/
theorem updateFieldsLoop_first_error (t : TableInfo) (bn : String) (bv : Value)
    (e : DBError) (rest : List (String × Value))
    (hbad : t.check_field bv bn = .error e) :
    ∀ good : List (String × Value),
      (∀ p ∈ good, t.check_field p.2 p.1 = .ok ()) →
      ∀ row : Row, updateFieldsLoop t row (good ++ (bn, bv) :: rest)
        = .error e := by
  intro good
  induction good with
  | nil =>
    intro _ row
    simp only [List.nil_append, updateFieldsLoop, _validate_and_update_field,
      hbad, except_bind_error]
  | cons p good ih =>
    intro hgood row
    obtain ⟨pn, pv⟩ := p
    have hp : t.check_field pv pn = .ok () := hgood (pn, pv) (by simp)
    simp only [List.cons_append, updateFieldsLoop, _validate_and_update_field,
      hp, except_bind_ok]
    exact ih (fun q hq => hgood q (List.mem_cons_of_mem _ hq))
      (rowSet row pn pv)

/-- C3.  Update is all-or-nothing: when the field changes contain an invalid
entry (unknown column, wrong type, or out-of-range value — i.e. one whose
`check_field` raises `e`), `update_record` raises that same error `e`, the
error of the FIRST invalid field, and produces no new file content — the
stored row for `idx` keeps every one of its old values, the valid earlier
changes included. -/
theorem C3_update_all_or_nothing (t : TableInfo) (df : DataFrame)
    (idx : Value) (good : List (String × Value)) (bn : String) (bv : Value)
    (rest : List (String × Value)) (e : DBError)
    (hdf : t.check_dataframe df = .ok ())
    (hrow : (_get_row_by_index df idx).isSome)
    (hgood : ∀ p ∈ good, t.check_field p.2 p.1 = .ok ())
    (hbad : t.check_field bv bn = .error e) :
    update_record idx t (good ++ (bn, bv) :: rest) (some df) = .error e := by
  obtain ⟨row, hrow⟩ := Option.isSome_iff_exists.1 hrow
  have hlen : (good ++ (bn, bv) :: rest).length > 0 := by simp
  have hloop := updateFieldsLoop_first_error t bn bv e rest hbad good hgood row
  simp only [update_record, hlen, if_true, _load_all_records_from_file_, hdf,
    except_bind_ok, _validate_and_update_fields, hrow, hloop,
    except_bind_error]

/-- C3 witness: updating stored row 2 with the valid change `ID := 7`
followed by the out-of-range change `value := 5` raises `ArithmeticError`
(and writes nothing). -/
theorem C3_witness :
    update_record (.vInt 2) exInfo
        [("ID", .vInt 7), ("value", .vFloat (mkRat 5 1))] (some exDF)
      = .error .arithmeticError :=
  C3_update_all_or_nothing exInfo exDF (.vInt 2) [("ID", .vInt 7)] "value"
    (.vFloat (mkRat 5 1)) [] .arithmeticError (by decide) (by decide)
    (by decide) (by decide)

/-- Unfolding of `cmpDefined` into its existential reading. -/
theorem cmpDefined_iff (op : Value → Value → Except DBError Bool)
    (col : String) (val : Value) (r : Row) :
    cmpDefined op col val r = true ↔
      ∃ x, rowVal r col = some x ∧ ∃ b, op x val = .ok b := by
  unfold cmpDefined
  cases hx : rowVal r col with
  | none => simp
  | some x =>
    cases hb : op x val with
    | ok b => simp [hb]
    | error e => simp [hb]

/-- When the comparison is defined on every row, the monadic row selection
succeeds and returns exactly the `List.filter` by `keepRow`. -/
theorem filterRows_ok (op : Value → Value → Except DBError Bool)
    (col : String) (val : Value) (rows : List Row)
    (h : ∀ r ∈ rows, cmpDefined op col val r = true) :
    filterRows op col val rows = .ok (rows.filter (keepRow op col val)) := by
  induction rows with
  | nil => simp [filterRows]
  | cons r rs ih =>
    obtain ⟨x, hx, b, hb⟩ := (cmpDefined_iff op col val r).1 (h r (by simp))
    have ih' := ih (fun r' hr' => h r' (List.mem_cons_of_mem _ hr'))
    have hk : keepRow op col val r = b := by
      simp [keepRow, hx, hb]
    simp only [filterRows, hx, hb, except_bind_ok, ih', List.filter_cons, hk]

/-- When every filter column is a schema column and every comparison is
defined on every row, the filter application loop succeeds and returns
exactly the rows matching all entries of the filter (AND composition). -/
theorem applyFilterLoop_ok (t : TableInfo)
    (op : Value → Value → Except DBError Bool)
    (filters : List (String × Value)) :
    ∀ df : DataFrame,
      (∀ cv ∈ filters, cv.1 ∈ t.schemaNames) →
      (∀ r ∈ df.rows, ∀ cv ∈ filters, cmpDefined op cv.1 cv.2 r = true) →
      applyFilterLoop t op df filters
        = .ok ⟨df.columns, df.rows.filter (matchesAll op filters)⟩ := by
  induction filters with
  | nil =>
    intro df _ _
    have hall : df.rows.filter (matchesAll op []) = df.rows := by
      rw [show matchesAll op [] = fun _ => true from
        funext (fun a => by simp [matchesAll])]
      exact List.filter_true df.rows
    simp [applyFilterLoop, hall]
  | cons cv rest ih =>
    intro df hcols hdef
    obtain ⟨c, v⟩ := cv
    have hc : c ∈ t.schemaNames := hcols (c, v) (by simp)
    have h1 : filterRows op c v df.rows
        = .ok (df.rows.filter (keepRow op c v)) :=
      filterRows_ok op c v df.rows (fun r hr => hdef r hr (c, v) (by simp))
    have ih' := ih ⟨df.columns, df.rows.filter (keepRow op c v)⟩
      (fun cv' h' => hcols cv' (List.mem_cons_of_mem _ h'))
      (fun r hr cv' h' => hdef r (List.mem_of_mem_filter hr) cv'
        (List.mem_cons_of_mem _ h'))
    simp only [applyFilterLoop, hc, if_true, h1, except_bind_ok, ih']
    rw [List.filter_filter]
    have hpt : ∀ a ∈ df.rows,
        (matchesAll op rest a && keepRow op c v a)
          = matchesAll op ((c, v) :: rest) a := by
      intro a _
      simp [matchesAll, List.all_cons, Bool.and_comm]
    rw [List.filter_congr hpt]

/-- C7.  Filter composition: on a stored table, `load_records_from_file`
with equality / less-than / greater-than filters whose columns are schema
columns and whose comparisons are defined on every row returns exactly the
stored rows that satisfy EVERY supplied entry of every filter kind (AND
within and across kinds) — so zero matching rows yields an empty table, not
an error — and with no filters supplied it returns the whole stored table,
exactly as `load_all` does. -/
theorem C7_filter_composition (t : TableInfo) (df : DataFrame)
    (eqf ltf gtf : List (String × Value))
    (hdf : t.check_dataframe df = .ok ())
    (hcols : ∀ cv ∈ eqf ++ ltf ++ gtf, cv.1 ∈ t.schemaNames)
    (heqd : ∀ r ∈ df.rows, ∀ cv ∈ eqf, cmpDefined pyEqOp cv.1 cv.2 r = true)
    (hltd : ∀ r ∈ df.rows, ∀ cv ∈ ltf, cmpDefined pyLt cv.1 cv.2 r = true)
    (hgtd : ∀ r ∈ df.rows, ∀ cv ∈ gtf, cmpDefined pyGt cv.1 cv.2 r = true) :
    load_records_from_file t (some eqf) (some ltf) (some gtf) (some df)
      = .ok ⟨df.columns, df.rows.filter (fun r =>
          matchesAll pyEqOp eqf r && matchesAll pyLt ltf r &&
            matchesAll pyGt gtf r)⟩ ∧
    load_records_from_file t none none none (some df) = .ok df := by
  constructor
  · have hceq : ∀ cv ∈ eqf, cv.1 ∈ t.schemaNames := by
      intro cv h
      exact hcols cv (by simp [h])
    have hclt : ∀ cv ∈ ltf, cv.1 ∈ t.schemaNames := by
      intro cv h
      exact hcols cv (by simp [h])
    have hcgt : ∀ cv ∈ gtf, cv.1 ∈ t.schemaNames := by
      intro cv h
      exact hcols cv (by simp [h])
    have h1 := applyFilterLoop_ok t pyEqOp eqf df hceq heqd
    have h2 := applyFilterLoop_ok t pyLt ltf
      ⟨df.columns, df.rows.filter (matchesAll pyEqOp eqf)⟩ hclt
      (fun r hr cv h => hltd r (List.mem_of_mem_filter hr) cv h)
    have h3 := applyFilterLoop_ok t pyGt gtf
      ⟨df.columns, (df.rows.filter (matchesAll pyEqOp eqf)).filter
        (matchesAll pyLt ltf)⟩ hcgt
      (fun r hr cv h =>
        hgtd r (List.mem_of_mem_filter (List.mem_of_mem_filter hr)) cv h)
    simp only [load_records_from_file, _load_all_records_from_file_, hdf,
      except_bind_ok, _apply_filter, h1, h2, h3]
    rw [List.filter_filter, List.filter_filter]
    refine congrArg Except.ok (congrArg (DataFrame.mk df.columns) ?_)
    refine List.filter_congr ?_
    intro a _
    cases matchesAll pyEqOp eqf a <;> cases matchesAll pyLt ltf a <;>
      cases matchesAll pyGt gtf a <;> rfl
  · simp only [load_records_from_file, _load_all_records_from_file_, hdf,
      except_bind_ok, _apply_filter]

/-- C7 witness: on the fixture table, `eq_cols = {"ID": 1}` together with
`lt_cols = {"value": 2.0}` returns exactly the first row, and the
filterless call returns the whole table. -/
theorem C7_witness :
    load_records_from_file exInfo (some [("ID", .vInt 1)])
        (some [("value", .vFloat (mkRat 2 1))]) (some []) (some exDF)
      = .ok ⟨exDF.columns, exDF.rows.filter (fun r =>
          matchesAll pyEqOp [("ID", .vInt 1)] r &&
            matchesAll pyLt [("value", .vFloat (mkRat 2 1))] r &&
            matchesAll pyGt [] r)⟩ ∧
    load_records_from_file exInfo none none none (some exDF) = .ok exDF :=
  C7_filter_composition exInfo exDF [("ID", .vInt 1)]
    [("value", .vFloat (mkRat 2 1))] [] (by decide) (by decide) (by decide)
    (by decide) (by decide)

/-- A row that carries a column label has a value for it. -/
theorem rowVal_isSome_of_mem (r : Row) (c : String)
    (h : c ∈ r.map Prod.fst) : (rowVal r c).isSome := by
  obtain ⟨p, hp, hpc⟩ := List.mem_map.1 h
  have hfind : (r.find? (fun p => p.1 == c)).isSome :=
    List.find?_isSome.2 ⟨p, hp, by simp [hpc]⟩
  obtain ⟨q, hq⟩ := Option.isSome_iff_exists.1 hfind
  simp [rowVal, hq]

/-- A row that passes `check_series` carries every schema column. -/
theorem check_series_rowVal_isSome (t : TableInfo) (r : Row)
    (h : t.check_series r = .ok ()) :
    ∀ c ∈ t.schemaNames, (rowVal r c).isSome := by
  intro c hc
  unfold TableInfo.check_series at h
  cases h1 : t.check_columns (r.map Prod.fst) with
  | error e =>
    rw [h1, except_bind_error] at h
    exact absurd h (by simp)
  | ok u =>
    cases u
    unfold TableInfo.check_columns at h1
    split at h1
    · rename_i hcond
      have hmem : c ∈ r.map Prod.fst := by
        have := List.all_eq_true.1 hcond.1 c hc
        simpa using this
      exact rowVal_isSome_of_mem r c hmem
    · exact absurd h1 (by simp)

/-- With a non-empty schema, the index column is a schema column. -/
theorem index_col_mem (t : TableInfo) (h : t.schema ≠ []) :
    t.index_col ∈ t.schemaNames := by
  cases hs : t.schema with
  | nil => exact absurd hs h
  | cons f fs => simp [TableInfo.index_col, TableInfo.schemaNames, hs]

/-- On a row that carries the column, the `!=` selection of `remove_record`
keeps exactly the rows the `==` selection drops. -/
theorem keepRow_ne_eq_not (col : String) (idx : Value) (r : Row)
    (h : (rowVal r col).isSome) :
    keepRow pyNeOp col idx r = !keepRow pyEqOp col idx r := by
  obtain ⟨x, hx⟩ := Option.isSome_iff_exists.1 h
  simp [keepRow, hx, pyNeOp, pyEqOp]

/-- The `!=` comparison never raises on a row that carries the column. -/
theorem cmpDefined_pyNeOp (col : String) (idx : Value) (r : Row)
    (h : (rowVal r col).isSome) : cmpDefined pyNeOp col idx r = true := by
  obtain ⟨x, hx⟩ := Option.isSome_iff_exists.1 h
  simp [cmpDefined, hx, pyNeOp]

/-- C9.  Remove is idempotent on absence: on a stored table holding exactly
one row whose index-column cell equals `idx`, the first `remove_record`
returns `true` and stores the table without that row, and the second
`remove_record` on the resulting table returns `false` — an absent index is
not an error — and leaves the stored table exactly as the first call left
it. -/
theorem C9_remove_twice (t : TableInfo) (df : DataFrame) (idx : Value)
    (hdf : t.check_dataframe df = .ok ())
    (hschema : t.schema ≠ [])
    (hone : (df.rows.filter (keepRow pyEqOp t.index_col idx)).length = 1) :
    remove_record idx t (some df) = .ok (true, some (removedDF t idx df)) ∧
    remove_record idx t (some (removedDF t idx df))
      = .ok (false, some (removedDF t idx df)) := by
  have hsome : ∀ r ∈ df.rows, (rowVal r t.index_col).isSome := by
    intro r hr
    exact check_series_rowVal_isSome t r
      ((check_dataframe_ok_iff t df).1 hdf r hr) t.index_col
      (index_col_mem t hschema)
  have h1 : filterRows pyNeOp t.index_col idx df.rows
      = .ok (df.rows.filter (keepRow pyNeOp t.index_col idx)) :=
    filterRows_ok _ _ _ _
      (fun r hr => cmpDefined_pyNeOp t.index_col idx r (hsome r hr))
  have hcongr : df.rows.filter (fun r => !keepRow pyEqOp t.index_col idx r)
      = df.rows.filter (keepRow pyNeOp t.index_col idx) :=
    List.filter_congr
      (fun r hr => (keepRow_ne_eq_not t.index_col idx r (hsome r hr)).symm)
  have hlen : (df.rows.filter (keepRow pyNeOp t.index_col idx)).length
      ≠ df.rows.length := by
    rw [← hcongr]
    have hsplit :=
      List.length_eq_length_filter_add (l := df.rows)
        (keepRow pyEqOp t.index_col idx)
    rw [hone] at hsplit
    omega
  have hkept : t.check_dataframe ⟨df.columns,
      df.rows.filter (keepRow pyNeOp t.index_col idx)⟩ = .ok () := by
    rw [check_dataframe_ok_iff]
    intro r hr
    exact (check_dataframe_ok_iff t df).1 hdf r (List.mem_of_mem_filter hr)
  have hbeq : ((df.rows.filter (keepRow pyNeOp t.index_col idx)).length
      == df.rows.length) = false := by
    simp [hlen]
  constructor
  · simp only [remove_record, _load_all_records_from_file_, hdf,
      except_bind_ok, h1, hbeq, Bool.false_eq_true, if_false,
      _overwrite_records_to_file_, removedDF, hkept]
  · have hidem : (df.rows.filter (keepRow pyNeOp t.index_col idx)).filter
        (keepRow pyNeOp t.index_col idx)
        = df.rows.filter (keepRow pyNeOp t.index_col idx) := by
      rw [List.filter_filter]
      exact List.filter_congr
        (fun a _ => by cases keepRow pyNeOp t.index_col idx a <;> rfl)
    have h2 : filterRows pyNeOp t.index_col idx
        (df.rows.filter (keepRow pyNeOp t.index_col idx))
        = .ok (df.rows.filter (keepRow pyNeOp t.index_col idx)) := by
      rw [filterRows_ok _ _ _ _
        (fun r hr => cmpDefined_pyNeOp t.index_col idx r
          (hsome r (List.mem_of_mem_filter hr))), hidem]
    have hbeq2 : ((df.rows.filter (keepRow pyNeOp t.index_col idx)).length
        == (df.rows.filter (keepRow pyNeOp t.index_col idx)).length)
        = true := by
      simp
    simp only [remove_record, removedDF, _load_all_records_from_file_, hkept,
      except_bind_ok, h2, hbeq2, if_true]

/-- C9 witness: removing index 1 from the fixture table returns `true` and
drops the row; removing it again returns `false` and changes nothing. -/
theorem C9_witness :
    remove_record (.vInt 1) exInfo (some exDF)
      = .ok (true, some (removedDF exInfo (.vInt 1) exDF)) ∧
    remove_record (.vInt 1) exInfo (some (removedDF exInfo (.vInt 1) exDF))
      = .ok (false, some (removedDF exInfo (.vInt 1) exDF)) :=
  C9_remove_twice exInfo exDF (.vInt 1) (by decide) (by decide) (by decide)
